import Mathlib

/-!
Verification development for the smart-box-web repository.

The repository is a browser dashboard receiving combined sensor readings
over MQTT.  We shallow-embed the data-normalization layer
(`useMQTT.ts`: `getTemperatureStatus`, `getHumidityStatus`,
`parseGPSLocation`, `handleSensorData`), the dashboard's display
classifications (`dashboard.tsx`: `temperatureStatus`, `humidityStatus`),
the unused validating helpers (`mqttUtils`: `parseSmartBoxData` and its
validators), and the connection manager (`mqttService.ts`: `MQTTService`
with `subscribe`, `unsubscribe`, `publish`, `disconnect`,
`handleMessage`, and its transport event handlers) together with the
hook-level connection status updates.

JavaScript numbers are modelled as rationals (ℚ); binary floating-point
rounding artifacts are not modelled.  JavaScript runtime values flowing
through untyped code are modelled by the `JValue` JSON tree, with
`Option JValue` standing for a possibly-`undefined` property access.
A JavaScript exception is modelled by an `Option`/branch result where the
source's behaviour at the throwing point matters.
-/

/-- JSON value tree, the model of a parsed JavaScript runtime value. -/
inductive JValue where
  | null : JValue
  | bool (b : Bool) : JValue
  | num (q : ℚ) : JValue
  | str (s : String) : JValue
  | arr (elems : List JValue) : JValue
  | obj (fields : List (String × JValue)) : JValue

/-- Property access `data.key` on a parsed value: on an object it yields the
field's value or `none` (JavaScript `undefined`) when absent; on any other
non-null value it yields `undefined`.  Access on `null` throws in
JavaScript; callers model that throw explicitly. -/
def jget : JValue → String → Option JValue
  | JValue.obj fields, key => fields.lookup key
  | _, _ => none

/-- Consume a run of decimal digits from the front of a character list,
returning the accumulated value, the number of digits consumed, and the
rest of the input. -/
def parseDigits : List Char → ℕ → ℕ → ℕ × ℕ × List Char
  | c :: rest, acc, n =>
    if c.isDigit then parseDigits rest (acc * 10 + (c.toNat - 48)) (n + 1)
    else (acc, n, c :: rest)
  | [], acc, n => (acc, n, [])

/-- Consume an optional sign character, returning the sign as ±1. -/
def parseSign : List Char → ℤ × List Char
  | '+' :: rest => (1, rest)
  | '-' :: rest => (-1, rest)
  | cs => (1, cs)

/-- Consume an optional exponent part `e`/`E` `[+-]? digits`.  As in
JavaScript's `parseFloat`, a bare `e` with no following digits is ignored. -/
def parseExponent (cs : List Char) : ℤ :=
  match cs with
  | 'e' :: rest | 'E' :: rest =>
    let (sgn, rest') := parseSign rest
    let (e, n, _) := parseDigits rest' 0 0
    if n = 0 then 0 else sgn * (e : ℤ)
  | _ => 0

/-- Model of JavaScript `parseFloat` on an already-trimmed string: optional
sign, integer digits, optional fraction, optional exponent, ignoring any
trailing garbage.  `none` models `NaN` (no digits found).  The special
literals `Infinity`/`-Infinity` are not modelled (ℚ has no infinities). -/
def jsParseFloat (s : String) : Option ℚ :=
  let cs := s.toList.dropWhile Char.isWhitespace
  let (sgn, cs1) := parseSign cs
  let (ip, ni, cs2) := parseDigits cs1 0 0
  let (fp, nf, cs3) :=
    match cs2 with
    | '.' :: rest => parseDigits rest 0 0
    | _ => (0, 0, cs2)
  if ni + nf = 0 then none
  else
    let mantissa : ℚ := (sgn : ℚ) * ((ip : ℚ) + (fp : ℚ) / (10 : ℚ) ^ nf)
    let e := parseExponent cs3
    some (mantissa * (10 : ℚ) ^ e)

/-- Floor of a rational as an integer, computed by floor division of the
numerator by the (positive) denominator. -/
def ratFloor (q : ℚ) : ℤ := Int.fdiv q.num (q.den : ℤ)

/-- Model of `parseFloat(x.toFixed(2))`: round to two decimal places,
ties away from zero (the ideal decimal behaviour of `Number.toFixed`;
binary representation artifacts are not modelled). -/
def jsToFixed2 (q : ℚ) : ℚ :=
  if 0 ≤ q then (ratFloor (q * 100 + 1/2) : ℚ) / 100
  else -((ratFloor (-q * 100 + 1/2) : ℚ) / 100)

/-- Split a character list on a separator character, as JavaScript
`String.prototype.split` with a single-character separator: always returns
at least one (possibly empty) piece. -/
def splitOnChar (sep : Char) : List Char → List (List Char)
  | [] => [[]]
  | c :: rest =>
    let r := splitOnChar sep rest
    if c = sep then [] :: r
    else
      match r with
      | piece :: pieces => (c :: piece) :: pieces
      | [] => [[c]]

/-- Trim whitespace from both ends of a character list, as JavaScript
`String.prototype.trim`. -/
def jsTrim (cs : List Char) : List Char :=
  ((cs.dropWhile Char.isWhitespace).reverse.dropWhile Char.isWhitespace).reverse

namespace UseMQTT

/-- Temperature classification labels used by the hook's state. -/
inductive TempStatus where
  | frozen | safe | danger
  deriving DecidableEq

/-- Humidity classification labels used by the hook's state. -/
inductive HumStatus where
  | safe | danger
  deriving DecidableEq

/-- Embedding of `getTemperatureStatus` from `useMQTT.ts`:
`if (temp < 0) return "frozen"; if (temp > 30) return "danger";
return "safe";`. -/
def getTemperatureStatus (temp : ℚ) : TempStatus :=
  if temp < 0 then TempStatus.frozen
  else if temp > 30 then TempStatus.danger
  else TempStatus.safe

/-- Embedding of `getHumidityStatus` from `useMQTT.ts`:
`if (humidity < 30 || humidity > 70) return "danger"; return "safe";`. -/
def getHumidityStatus (humidity : ℚ) : HumStatus :=
  if humidity < 30 ∨ humidity > 70 then HumStatus.danger
  else HumStatus.safe

/-- Embedding of `parseGPSLocation` from `useMQTT.ts` applied to an actual
string: `gpsString.split(',').map(coord => parseFloat(coord.trim()))`,
destructured as `[lat, lng]`, returning
`{ latitude: lat || 0, longitude: lng || 0 }`.  A missing second piece is
`undefined` and an unparsable piece is `NaN`; both are falsy, so `|| 0`
replaces each such coordinate — independently — by `0`. -/
def parseGPSLocationStr (gpsString : String) : ℚ × ℚ :=
  let parts := (splitOnChar ',' gpsString.toList).map
    (fun cs => jsParseFloat (String.mk (jsTrim cs)))
  let lat : ℚ :=
    match parts.get? 0 with
    | some (some v) => v
    | _ => 0
  let lng : ℚ :=
    match parts.get? 1 with
    | some (some v) => v
    | _ => 0
  (lat, lng)

/-- The `parseGPSLocation` call as it happens inside `handleSensorData`,
where `data.gps_location` may be absent or not a string.  Calling `.split`
on a non-string throws, and the function's `try`/`catch` then returns the
`{latitude: 0, longitude: 0}` fallback. -/
def parseGPSLocationJS : Option JValue → ℚ × ℚ
  | some (JValue.str s) => parseGPSLocationStr s
  | _ => (0, 0)

end UseMQTT

namespace UseMQTT

/-- Temperature group of the hook's `SmartBoxData` state. -/
structure TemperatureField where
  value : ℚ
  unit : String
  status : TempStatus
  lastUpdate : String
  deriving DecidableEq

/-- Humidity group of the hook's `SmartBoxData` state. -/
structure HumidityField where
  value : ℚ
  unit : String
  status : HumStatus
  lastUpdate : String
  deriving DecidableEq

/-- Location group of the hook's `SmartBoxData` state. -/
structure LocationField where
  latitude : ℚ
  longitude : ℚ
  accuracy : ℚ
  lastUpdate : String
  deriving DecidableEq

/-- System-status group of the hook's `SmartBoxData` state.  The TypeScript
declaration types `status` as the enum `"active" | "inactive" | "error"`,
but `handleSensorData` stores `data.status` unchecked, so at runtime the
field can hold any value (or be `undefined`); it is therefore modelled as
`Option JValue`. -/
structure SystemStatusField where
  online : Bool
  status : Option JValue
  lastUpdate : String

/-- The hook's `SmartBoxData` state snapshot.  `deviceId` is declared as
`string` but `handleSensorData` stores `data.device_id` unchecked, hence
`Option JValue`. -/
structure SmartBoxData where
  deviceId : Option JValue
  temperature : TemperatureField
  humidity : HumidityField
  location : LocationField
  systemStatus : SystemStatusField

/-- The initial `useState` value of the hook's `SmartBoxData`. -/
def initialSmartBoxData : SmartBoxData :=
  { deviceId := some (JValue.str "Unknown")
    temperature := { value := 0, unit := "°C", status := TempStatus.safe, lastUpdate := "Never" }
    humidity := { value := 0, unit := "%", status := HumStatus.safe, lastUpdate := "Never" }
    location := { latitude := 0, longitude := 0, accuracy := 0, lastUpdate := "Never" }
    systemStatus := { online := false, status := some (JValue.str "inactive"), lastUpdate := "Never" } }

/-- The `data.status === "active"` test from `handleSensorData`: strict
equality against the string `"active"`, false for any non-string value
and for a missing field. -/
def statusIsActive : Option JValue → Bool
  | some (JValue.str s) => s = "active"
  | _ => false

/-- Body of `handleSensorData` for a non-null payload (on which property
access cannot throw in the handler itself).  The handler does no
validation: it reads `data.gps_location`, `data.temperature`,
`data.humidity`, `data.device_id` and `data.status` directly.
`timestamp` is the `new Date().toLocaleString()` capture time.  The result
is `none` exactly when `data.temperature.toFixed(2)` or
`data.humidity.toFixed(2)` throws inside the state updater because the
field is missing or not a number.  In every other case the whole snapshot
is replaced (the spread of `prevData` is immediately overwritten field
group by field group), with a missing or mistyped `gps_location` silently
mapped to `{0,0}` by `parseGPSLocation`'s `catch`, and a missing or
mistyped `status` stored raw with `online := false`. -/
def handleSensorDataCore (data : JValue) (timestamp : String) (prevData : SmartBoxData) :
    Option SmartBoxData :=
  let gps := parseGPSLocationJS (jget data "gps_location")
  match jget data "temperature", jget data "humidity" with
    | some (JValue.num t), some (JValue.num h) =>
      some { prevData with
        deviceId := jget data "device_id"
        temperature := { value := jsToFixed2 t, unit := "°C",
                         status := getTemperatureStatus t, lastUpdate := timestamp }
        humidity := { value := jsToFixed2 h, unit := "%",
                      status := getHumidityStatus h, lastUpdate := timestamp }
        location := { latitude := gps.1, longitude := gps.2, accuracy := 10,
                      lastUpdate := timestamp }
        systemStatus := { online := statusIsActive (jget data "status"),
                          status := jget data "status", lastUpdate := timestamp } }
    | _, _ => none

/-- Embedding of `handleSensorData` from `useMQTT.ts`.  A `null` payload
(possible when the dispatch layer parses the literal string `"null"`)
throws a `TypeError` at the very first property access
`data.gps_location`, caught by the dispatcher, leaving the state
untouched; this is the outer `none` case.  Every other payload is
processed by `handleSensorDataCore`, which performs no field
validation. -/
def handleSensorData (data : JValue) (timestamp : String) (prevData : SmartBoxData) :
    Option SmartBoxData :=
  match data with
  | JValue.null => none
  | _ => handleSensorDataCore data timestamp prevData

end UseMQTT

namespace Dashboard

/-- Embedding of the `temperatureStatus` memo from `dashboard.tsx`
(lines 233-237): `temperature <= 0 → frozen`,
`temperature > 0 && temperature <= 4 → safe`, otherwise `danger`.
The result is the `(cls, label)` pair of the source. -/
def temperatureStatus (temperature : ℚ) : String × String :=
  if temperature ≤ 0 then ("frozen", "Frozen")
  else if temperature > 0 ∧ temperature ≤ 4 then ("safe", "Safe Point")
  else ("danger", "Danger")

/-- Embedding of the `humidityStatus` memo from `dashboard.tsx`
(lines 240-243): `humidity >= 85 → safe`, otherwise `danger`. -/
def humidityStatus (humidity : ℚ) : String × String :=
  if humidity ≥ 85 then ("safe", "Safe Point")
  else ("danger", "Danger")

end Dashboard

namespace MqttUtils

/-- Embedding of `getTemperatureStatus` from the `mqttUtils` helper file:
the same `≤ 0 / ≤ 4` rule as the dashboard memo. -/
def getTemperatureStatus (temperature : ℚ) : String × String :=
  if temperature ≤ 0 then ("frozen", "Frozen")
  else if temperature > 0 ∧ temperature ≤ 4 then ("safe", "Safe Point")
  else ("danger", "Danger")

/-- Embedding of `getHumidityStatus` from the `mqttUtils` helper file:
the same `≥ 85` rule as the dashboard memo. -/
def getHumidityStatus (humidity : ℚ) : String × String :=
  if humidity ≥ 85 then ("safe", "Safe Point")
  else ("danger", "Danger")

end MqttUtils

/-- JSON whitespace skipping: space, tab, newline, carriage return. -/
def skipWs (cs : List Char) : List Char :=
  cs.dropWhile fun c => c = ' ' ∨ c = '\t' ∨ c = '\n' ∨ c = '\r'

/-- Value of a hexadecimal digit, or `none`. -/
def hexVal (c : Char) : Option ℕ :=
  if '0' ≤ c ∧ c ≤ '9' then some (c.toNat - 48)
  else if 'a' ≤ c ∧ c ≤ 'f' then some (c.toNat - 87)
  else if 'A' ≤ c ∧ c ≤ 'F' then some (c.toNat - 55)
  else none

/-- Parse the body of a JSON string after the opening quote, handling the
escape sequences of the JSON grammar; returns the decoded characters and
the input after the closing quote. -/
def parseStringChars : ℕ → List Char → Option (List Char × List Char)
  | 0, _ => none
  | _ + 1, [] => none
  | _ + 1, '"' :: rest => some ([], rest)
  | fuel + 1, '\\' :: esc =>
    match esc with
    | '"' :: rest => (parseStringChars fuel rest).map fun (cs, r) => ('"' :: cs, r)
    | '\\' :: rest => (parseStringChars fuel rest).map fun (cs, r) => ('\\' :: cs, r)
    | '/' :: rest => (parseStringChars fuel rest).map fun (cs, r) => ('/' :: cs, r)
    | 'b' :: rest => (parseStringChars fuel rest).map fun (cs, r) => (Char.ofNat 8 :: cs, r)
    | 'f' :: rest => (parseStringChars fuel rest).map fun (cs, r) => (Char.ofNat 12 :: cs, r)
    | 'n' :: rest => (parseStringChars fuel rest).map fun (cs, r) => ('\n' :: cs, r)
    | 'r' :: rest => (parseStringChars fuel rest).map fun (cs, r) => ('\r' :: cs, r)
    | 't' :: rest => (parseStringChars fuel rest).map fun (cs, r) => ('\t' :: cs, r)
    | 'u' :: h1 :: h2 :: h3 :: h4 :: rest =>
      match hexVal h1, hexVal h2, hexVal h3, hexVal h4 with
      | some a, some b, some c, some d =>
        (parseStringChars fuel rest).map fun (cs, r) =>
          (Char.ofNat (((a * 16 + b) * 16 + c) * 16 + d) :: cs, r)
      | _, _, _, _ => none
    | _ => none
  | fuel + 1, c :: rest => (parseStringChars fuel rest).map fun (cs, r) => (c :: cs, r)

/-- Parse a JSON number: optional `-`, integer digits, optional fraction
(at least one digit), optional exponent (at least one digit).  The JSON
restriction on leading zeros is not enforced; this only makes the model
accept a few strings `JSON.parse` rejects. -/
def parseJsonNumber (cs : List Char) : Option (ℚ × List Char) :=
  let (neg, cs1) :=
    match cs with
    | '-' :: rest => (true, rest)
    | _ => (false, cs)
  let (ip, ni, cs2) := parseDigits cs1 0 0
  if ni = 0 then none
  else
    let (fp, nf, cs3) :=
      match cs2 with
      | '.' :: rest => parseDigits rest 0 0
      | _ => (0, 0, cs2)
    if cs3.length < cs2.length ∧ nf = 0 then none
    else
      let withFrac : ℚ := (ip : ℚ) + (fp : ℚ) / (10 : ℚ) ^ nf
      match cs3 with
      | 'e' :: rest | 'E' :: rest =>
        let (sgn, rest') := parseSign rest
        let (e, ne, rest'') := parseDigits rest' 0 0
        if ne = 0 then none
        else
          let mag := withFrac * (10 : ℚ) ^ (sgn * (e : ℤ))
          some (if neg then -mag else mag, rest'')
      | _ => some (if neg then -withFrac else withFrac, cs3)

mutual

/-- Parse one JSON value, returning it and the remaining input. -/
def parseJsonValue : ℕ → List Char → Option (JValue × List Char)
  | 0, _ => none
  | fuel + 1, cs =>
    match skipWs cs with
    | 'n' :: 'u' :: 'l' :: 'l' :: rest => some (JValue.null, rest)
    | 't' :: 'r' :: 'u' :: 'e' :: rest => some (JValue.bool true, rest)
    | 'f' :: 'a' :: 'l' :: 's' :: 'e' :: rest => some (JValue.bool false, rest)
    | '"' :: rest =>
      (parseStringChars (rest.length + 1) rest).map
        fun (content, r) => (JValue.str (String.mk content), r)
    | '[' :: rest =>
      (match skipWs rest with
       | ']' :: r => some (JValue.arr [], r)
       | other => (parseJsonItems fuel other).map fun (vs, r) => (JValue.arr vs, r))
    | '{' :: rest =>
      (match skipWs rest with
       | '}' :: r => some (JValue.obj [], r)
       | other => (parseJsonMembers fuel other).map fun (fs, r) => (JValue.obj fs, r))
    | other => (parseJsonNumber other).map fun (q, r) => (JValue.num q, r)

/-- Parse the comma-separated items of a non-empty JSON array, up to and
including the closing bracket. -/
def parseJsonItems : ℕ → List Char → Option (List JValue × List Char)
  | 0, _ => none
  | fuel + 1, cs =>
    match parseJsonValue fuel cs with
    | none => none
    | some (v, rest) =>
      match skipWs rest with
      | ',' :: rest' => (parseJsonItems fuel rest').map fun (vs, r) => (v :: vs, r)
      | ']' :: rest' => some ([v], rest')
      | _ => none

/-- Parse the comma-separated members of a non-empty JSON object, up to and
including the closing brace.  Duplicate keys are kept in order (JavaScript
would let the last occurrence win; duplicates do not occur in this
system's payloads). -/
def parseJsonMembers : ℕ → List Char → Option (List (String × JValue) × List Char)
  | 0, _ => none
  | fuel + 1, cs =>
    match skipWs cs with
    | '"' :: rest =>
      match parseStringChars (rest.length + 1) rest with
      | none => none
      | some (key, rest1) =>
        match skipWs rest1 with
        | ':' :: rest2 =>
          match parseJsonValue fuel rest2 with
          | none => none
          | some (v, rest3) =>
            match skipWs rest3 with
            | ',' :: rest4 =>
              (parseJsonMembers fuel rest4).map
                fun (fs, r) => ((String.mk key, v) :: fs, r)
            | '}' :: rest4 => some ([(String.mk key, v)], rest4)
            | _ => none
        | _ => none
    | _ => none

end

/-- Model of `JSON.parse` as used in `handleMessage`: parse one JSON value
with optional surrounding whitespace; `none` models the thrown
`SyntaxError` (any leftover input after the value is an error). -/
def jsJSONParse (s : String) : Option JValue :=
  match parseJsonValue (s.length + 1) s.toList with
  | some (v, rest) => if skipWs rest = [] then some v else none
  | none => none

/-- A registered message handler.  `throws` records whether invoking the
handler raises an exception; the dispatch loop in `handleMessage` wraps
every invocation in its own `try`/`catch`, so a throwing handler must not
influence dispatch to the others. -/
structure Handler where
  id : ℕ
  throws : Bool
  deriving DecidableEq

/-- A message as delivered to handlers: the result of `JSON.parse` on the
payload, or the raw string when parsing failed. -/
inductive ParsedMessage where
  | json (v : JValue) : ParsedMessage
  | raw (s : String) : ParsedMessage

/-- One handler invocation performed by `handleMessage`. -/
structure Invocation where
  handler : Handler
  topic : String
  payload : ParsedMessage

/-- An outbound payload as serialized by `publish`: strings pass through
verbatim, everything else is `JSON.stringify`-encoded. -/
inductive WirePayload where
  | verbatim (s : String) : WirePayload
  | jsonEncoded (v : JValue) : WirePayload

/-- An effect the service performs on the underlying `mqtt.js` client. -/
inductive ClientAction where
  | transportSubscribe (topic : String) : ClientAction
  | transportUnsubscribe (topic : String) : ClientAction
  | transportPublish (topic : String) (payload : WirePayload) (retain : Bool) : ClientAction
  | transportEnd : ClientAction

/-- The `mqttTopics` object values from `config/mqtt.ts`, in declaration
order: sensor data, warning, control. -/
def mqttTopicsList : List String :=
  ["coolerbox/sensor/data", "smartbox/command/warning", "smartbox/command/control"]

/-- The sensor data topic `mqttTopics.sensorData`. -/
def sensorDataTopic : String := "coolerbox/sensor/data"

/-- The `maxReconnectAttempts` field of `MQTTService`, hardcoded to 5. -/
def maxReconnectAttempts : ℕ := 5

/-- State of the `MQTTService` class: whether `this.client` is non-null,
the `isConnected` flag, the `messageHandlers` map (association list in
key-insertion order, each topic holding its handlers in registration
order), the reconnect attempt counter, and the configured client id. -/
structure MQTTService where
  hasClient : Bool
  isConnected : Bool
  messageHandlers : List (String × List Handler)
  reconnectAttempts : ℕ
  configClientId : String

/-- The handlers registered for a topic: `this.messageHandlers.get(topic)`
with `[]` for a missing entry, as the dispatch code's `|| []`. -/
def handlersFor (svc : MQTTService) (topic : String) : List Handler :=
  (svc.messageHandlers.lookup topic).getD []

/-- Append a handler to a topic's list in the handler map, creating the
entry when absent — the `if (!has) set(topic, []); get(topic)!.push(h)`
sequence from `subscribe`. -/
def addHandler : List (String × List Handler) → String → Handler →
    List (String × List Handler)
  | [], topic, h => [(topic, [h])]
  | (k, hs) :: rest, topic, h =>
    if k = topic then (k, hs ++ [h]) :: rest
    else (k, hs) :: addHandler rest topic h

/-- Embedding of `MQTTService.subscribe`: always record the handler; issue
the transport subscription only when a client exists and is connected. -/
def MQTTService.subscribe (svc : MQTTService) (topic : String) (h : Handler) :
    MQTTService × List ClientAction :=
  ({ svc with messageHandlers := addHandler svc.messageHandlers topic h },
   if svc.hasClient ∧ svc.isConnected then [ClientAction.transportSubscribe topic] else [])

/-- Embedding of `MQTTService.unsubscribe`: with a handler, remove its
first occurrence from the topic's list; without one, drop the topic's
entry; issue the transport unsubscribe only when connected. -/
def MQTTService.unsubscribe (svc : MQTTService) (topic : String) (h : Option Handler) :
    MQTTService × List ClientAction :=
  let handlers' :=
    match h with
    | some handler =>
      svc.messageHandlers.map fun (k, hs) =>
        if k = topic then (k, hs.eraseP (fun x => x = handler)) else (k, hs)
    | none => svc.messageHandlers.filter fun (k, _) => ¬ k = topic
  ({ svc with messageHandlers := handlers' },
   if svc.hasClient ∧ svc.isConnected then [ClientAction.transportUnsubscribe topic] else [])

/-- Embedding of the private `subscribeToTopics`: when a client exists and
is connected, subscribe the transport to every topic of `mqttTopics` —
the fixed configuration list, not the topics of registered handlers. -/
def subscribeToTopics (svc : MQTTService) : List ClientAction :=
  if svc.hasClient ∧ svc.isConnected then
    mqttTopicsList.map ClientAction.transportSubscribe
  else []

/-- Embedding of the `'connect'` event handler inside `connect()`: set
`isConnected`, reset the attempt counter, and run `subscribeToTopics`. -/
def onConnectEvent (svc : MQTTService) : MQTTService × List ClientAction :=
  let svc' := { svc with isConnected := true, reconnectAttempts := 0 }
  (svc', subscribeToTopics svc')

/-- Embedding of the `'close'` event handler: clear `isConnected`. -/
def onCloseEvent (svc : MQTTService) : MQTTService :=
  { svc with isConnected := false }

/-- Embedding of the `'reconnect'` event handler: count the attempt and,
once the counter reaches `maxReconnectAttempts`, end the client
(`this.client?.end()` — a no-op when the client is null). -/
def onReconnectEvent (svc : MQTTService) : MQTTService × List ClientAction :=
  let svc' := { svc with reconnectAttempts := svc.reconnectAttempts + 1 }
  (svc',
    if maxReconnectAttempts ≤ svc'.reconnectAttempts ∧ svc'.hasClient then
      [ClientAction.transportEnd]
    else [])

/-- Embedding of `MQTTService.handleMessage`: decode the payload with
`JSON.parse`, falling back to the raw string on a parse error, then invoke
every handler registered for the topic, in registration order.  Each
invocation is wrapped in its own `try`/`catch` in the source, so the
produced invocation list does not depend on any handler's `throws` flag. -/
def MQTTService.handleMessage (svc : MQTTService) (topic : String) (message : String) :
    List Invocation :=
  let parsed :=
    match jsJSONParse message with
    | some v => ParsedMessage.json v
    | none => ParsedMessage.raw message
  (handlersFor svc topic).map fun h => { handler := h, topic := topic, payload := parsed }

/-- Embedding of `MQTTService.publish`: when the client is null or not
connected, log and return `false` with no transport effect; otherwise
serialize (strings verbatim, other values JSON-encoded) and publish. -/
def MQTTService.publish (svc : MQTTService) (topic : String) (message : JValue)
    (retain : Bool) : Bool × List ClientAction :=
  if ¬ svc.hasClient ∨ ¬ svc.isConnected then (false, [])
  else
    let wire :=
      match message with
      | JValue.str s => WirePayload.verbatim s
      | v => WirePayload.jsonEncoded v
    (true, [ClientAction.transportPublish topic wire retain])

/-- Embedding of `MQTTService.disconnect`: when a client exists, end it,
null it out, clear `isConnected` and the handler map; when the client is
already null, do nothing at all. -/
def MQTTService.disconnect (svc : MQTTService) : MQTTService × List ClientAction :=
  if svc.hasClient then
    ({ svc with hasClient := false, isConnected := false, messageHandlers := [] },
     [ClientAction.transportEnd])
  else (svc, [])

/-- The hook's `MQTTConnectionStatus` state from `useMQTT.ts`. -/
structure MQTTConnectionStatus where
  connected : Bool
  connecting : Bool
  error : Option String
  clientId : String

/-- Combined state of the service singleton and the hook's connection
status. -/
structure SystemState where
  svc : MQTTService
  hookStatus : MQTTConnectionStatus

/-- Transport-driven events relevant to the reconnect lifecycle.
`connectSuccess` is the `'connect'` event together with the resolution of
the `connect()` promise in the hook's `initializeMQTT` success branch;
the broker events only reach the service's own event handlers — the hook
registers no callback for them, so they leave `hookStatus` untouched. -/
inductive SystemEvent where
  | connectSuccess : SystemEvent
  | brokerReconnectAttempt : SystemEvent
  | brokerClose : SystemEvent

/-- One step of the combined system, returning the new state and the
client actions performed. -/
def systemStep (s : SystemState) : SystemEvent → SystemState × List ClientAction
  | SystemEvent.connectSuccess =>
    let (svc', as) := onConnectEvent s.svc
    ({ svc := svc',
       hookStatus := { s.hookStatus with
         connected := true, connecting := false, clientId := svc'.configClientId } },
     as)
  | SystemEvent.brokerReconnectAttempt =>
    let (svc', as) := onReconnectEvent s.svc
    ({ s with svc := svc' }, as)
  | SystemEvent.brokerClose =>
    ({ s with svc := onCloseEvent s.svc }, [])

/-- Run a sequence of system events, collecting all client actions. -/
def runSystem (s : SystemState) : List SystemEvent → SystemState × List ClientAction
  | [] => (s, [])
  | e :: es =>
    let (s₁, as) := systemStep s e
    let (s₂, rest) := runSystem s₁ es
    (s₂, as ++ rest)

namespace MqttUtils

/-- Substring occurrence anywhere in a character list. -/
def listContainsSub (pat : List Char) : List Char → Bool
  | [] => pat.isEmpty
  | c :: rest => pat.isPrefixOf (c :: rest) || listContainsSub pat rest

/-- Substring test modelling JavaScript `topic.includes(pattern)`. -/
def strContains (s pattern : String) : Bool :=
  listContainsSub pattern.toList s.toList

/-- A per-field state update produced by `parseSmartBoxData`: one of the
four per-field message shapes the helper recognizes. -/
inductive ParsedUpdate where
  | temperature (value : ℚ) : ParsedUpdate
  | humidity (value : ℚ) : ParsedUpdate
  | location (lat lng : ℚ) (accuracy : Option JValue) : ParsedUpdate
  | systemStatus (online : Bool) (batteryLevel : Option JValue) : ParsedUpdate

/-- The `typeof data === 'object'` test: true for objects, arrays and
`null`. -/
def typeofIsObject : JValue → Bool
  | JValue.obj _ => true
  | JValue.arr _ => true
  | JValue.null => true
  | _ => false

/-- Embedding of `validateTemperatureData`: an object with a numeric
`value` in `[-50, 100]` and a string `unit`.  On `null` the source's
property access throws; the caller's `catch` turns that into the same
`null` result as a `false` verdict, so the throw is folded into `false`
here (JSON arrays cannot carry a `value` member, so they fail too). -/
def validateTemperatureData (data : JValue) : Bool :=
  typeofIsObject data &&
  (match jget data "value" with
   | some (JValue.num v) => decide (-50 ≤ v ∧ v ≤ 100)
   | _ => false) &&
  (match jget data "unit" with
   | some (JValue.str _) => true
   | _ => false)

/-- Embedding of `validateHumidityData`: numeric `value` in `[0, 100]`
and a string `unit`. -/
def validateHumidityData (data : JValue) : Bool :=
  typeofIsObject data &&
  (match jget data "value" with
   | some (JValue.num v) => decide (0 ≤ v ∧ v ≤ 100)
   | _ => false) &&
  (match jget data "unit" with
   | some (JValue.str _) => true
   | _ => false)

/-- Embedding of `validateLocationData`: numeric `latitude` in `[-90, 90]`
and numeric `longitude` in `[-180, 180]`. -/
def validateLocationData (data : JValue) : Bool :=
  typeofIsObject data &&
  (match jget data "latitude" with
   | some (JValue.num lat) => decide (-90 ≤ lat ∧ lat ≤ 90)
   | _ => false) &&
  (match jget data "longitude" with
   | some (JValue.num lng) => decide (-180 ≤ lng ∧ lng ≤ 180)
   | _ => false)

/-- Embedding of `validateSystemStatusData`: a boolean `online` member. -/
def validateSystemStatusData (data : JValue) : Bool :=
  typeofIsObject data &&
  (match jget data "online" with
   | some (JValue.bool _) => true
   | _ => false)

/-- The JavaScript truthiness of `data.online` used in
`data.online ? 'online' : 'offline'`. -/
def jsTruthy : Option JValue → Bool
  | some (JValue.bool b) => b
  | some (JValue.num q) => ¬ q = 0
  | some (JValue.str s) => ¬ s = ""
  | some JValue.null => false
  | some (JValue.arr _) => true
  | some (JValue.obj _) => true
  | none => false

/-- Embedding of `parseSmartBoxData` from the `mqttUtils` helper file: parse
the message as JSON (a parse error yields `null`), then validate according
to which of the substrings `/temperature`, `/humidity`, `/location`,
`/status` the topic contains; any unrecognized topic — including the
actual combined sensor-data topic `coolerbox/sensor/data` — yields
`null`.  This helper is defined but never imported by the live code
path. -/
def parseSmartBoxData (topic message : String) : Option ParsedUpdate :=
  match jsJSONParse message with
  | none => none
  | some data =>
    if strContains topic "/temperature" then
      if validateTemperatureData data then
        match jget data "value" with
        | some (JValue.num v) => some (ParsedUpdate.temperature v)
        | _ => none
      else none
    else if strContains topic "/humidity" then
      if validateHumidityData data then
        match jget data "value" with
        | some (JValue.num v) => some (ParsedUpdate.humidity v)
        | _ => none
      else none
    else if strContains topic "/location" then
      if validateLocationData data then
        match jget data "latitude", jget data "longitude" with
        | some (JValue.num lat), some (JValue.num lng) =>
          some (ParsedUpdate.location lat lng (jget data "accuracy"))
        | _, _ => none
      else none
    else if strContains topic "/status" then
      if validateSystemStatusData data then
        some (ParsedUpdate.systemStatus (jsTruthy (jget data "online"))
          (jget data "batteryLevel"))
      else none
    else none

end MqttUtils


section ConcreteEvaluation

attribute [local semireducible] Rat.mul Rat.inv Rat.add Rat.sub

/-- Claim C2: the claim's rule `frozen ↔ t < 0`, `safe ↔ 0 ≤ t ≤ 4`,
`danger ↔ t > 4` fails on both call sites: the hook's stored
classification `getTemperatureStatus` returns `safe` for `t = 10`
(the claim demands `danger` above 4), and the dashboard's
`temperatureStatus` returns `frozen` for `t = 0` (the claim demands
`safe` at 0). -/
theorem C2_counterexample :
    UseMQTT.getTemperatureStatus 10 = UseMQTT.TempStatus.safe ∧
    ¬ UseMQTT.getTemperatureStatus 10 = UseMQTT.TempStatus.danger ∧
    Dashboard.temperatureStatus 0 = ("frozen", "Frozen") ∧
    ¬ Dashboard.temperatureStatus 0 = ("safe", "Safe Point") := by
  refine ⟨by decide, by decide, by decide, by decide⟩

/-- Claim C2 (amended): the repository has two divergent temperature
rules.  The hook's stored classification is `frozen` for `t < 0`, `safe`
for `0 ≤ t ≤ 30`, `danger` for `t > 30`; the dashboard's (and the unused
utils helper's) display classification is `frozen` for `t ≤ 0`, `safe`
for `0 < t ≤ 4`, `danger` for `t > 4`.  Each rule's three partitions are
exhaustive and non-overlapping for every rational `t`, as the three
iff-characterizations per rule show. -/
theorem C2_amended (t : ℚ) :
    (UseMQTT.getTemperatureStatus t = UseMQTT.TempStatus.frozen ↔ t < 0) ∧
    (UseMQTT.getTemperatureStatus t = UseMQTT.TempStatus.safe ↔ 0 ≤ t ∧ t ≤ 30) ∧
    (UseMQTT.getTemperatureStatus t = UseMQTT.TempStatus.danger ↔ 30 < t) ∧
    (Dashboard.temperatureStatus t = ("frozen", "Frozen") ↔ t ≤ 0) ∧
    (Dashboard.temperatureStatus t = ("safe", "Safe Point") ↔ 0 < t ∧ t ≤ 4) ∧
    (Dashboard.temperatureStatus t = ("danger", "Danger") ↔ 4 < t) ∧
    MqttUtils.getTemperatureStatus t = Dashboard.temperatureStatus t := by
  refine ⟨?_, ?_, ?_, ?_, ?_, ?_, rfl⟩ <;>
    simp only [UseMQTT.getTemperatureStatus, Dashboard.temperatureStatus] <;>
    split_ifs <;> simp_all <;> try linarith

/-- Claim C3: the claim's rule (`safe ↔ h ≥ 85`, and humidity 90 classifies
as `safe` in a processed reading) fails on the code: the hook's
`getHumidityStatus`, the function that computes the classification stored
in the `SmartBoxData` snapshot by `handleSensorData`, uses the `30–70`
band, so a processed reading with humidity 90 stores `danger`.  Here the
spec's own end-to-end payload is processed and the stored humidity status
is `danger`, not `safe`. -/
theorem C3_counterexample :
    (UseMQTT.handleSensorData
        (JValue.obj [("device_id", JValue.str "smartbox_001"),
                     ("temperature", JValue.num (-1)),
                     ("humidity", JValue.num 90),
                     ("gps_location", JValue.str "1.0,2.0"),
                     ("status", JValue.str "active")])
        "ts" UseMQTT.initialSmartBoxData).map (fun st => st.humidity.status)
      = some UseMQTT.HumStatus.danger ∧
    UseMQTT.getHumidityStatus 90 = UseMQTT.HumStatus.danger ∧
    ¬ UseMQTT.getHumidityStatus 90 = UseMQTT.HumStatus.safe := by
  refine ⟨by decide, by decide, by decide⟩

/-- Claim C3 (amended): the hook's stored humidity classification is
`safe` exactly for `30 ≤ h ≤ 70` and `danger` otherwise — so a processed
reading with humidity 90 stores `danger` — while the dashboard's (and the
unused utils helper's) display classification is `safe` exactly for
`h ≥ 85`, so the same reading is displayed as `safe`. -/
theorem C3_amended (h : ℚ) :
    (UseMQTT.getHumidityStatus h = UseMQTT.HumStatus.safe ↔ 30 ≤ h ∧ h ≤ 70) ∧
    (UseMQTT.getHumidityStatus h = UseMQTT.HumStatus.danger ↔ h < 30 ∨ 70 < h) ∧
    (Dashboard.humidityStatus h = ("safe", "Safe Point") ↔ 85 ≤ h) ∧
    (Dashboard.humidityStatus h = ("danger", "Danger") ↔ h < 85) ∧
    MqttUtils.getHumidityStatus h = Dashboard.humidityStatus h ∧
    UseMQTT.getHumidityStatus 90 = UseMQTT.HumStatus.danger ∧
    Dashboard.humidityStatus 90 = ("safe", "Safe Point") := by
  refine ⟨?_, ?_, ?_, ?_, rfl, by decide, by decide⟩
  · simp only [UseMQTT.getHumidityStatus]
    split_ifs with hc
    · exact iff_of_false (by simp) (fun hx => by rcases hc with h1 | h1 <;> linarith [hx.1, hx.2])
    · push_neg at hc
      exact iff_of_true rfl ⟨by linarith [hc.1], by linarith [hc.2]⟩
  · simp only [UseMQTT.getHumidityStatus]
    split_ifs with hc
    · exact iff_of_true rfl hc
    · exact iff_of_false (by simp) hc
  · simp only [Dashboard.humidityStatus]
    split_ifs with hc
    · exact iff_of_true rfl hc
    · exact iff_of_false (by simp) hc
  · simp only [Dashboard.humidityStatus]
    split_ifs with hc
    · exact iff_of_false (by simp) (not_lt.mpr hc)
    · exact iff_of_true rfl (not_le.mp hc)

/-- Claim C4: the second half of the claim fails on the code.  The
`{0,0}` fallback is applied per coordinate, not to the pair: for the
claim's own example string `"not-a-number,106"`, `parseGPSLocation`
returns `{latitude: 0, longitude: 106}`, not `{0,0}` (only the
unparsable first coordinate is zeroed by `lat || 0`). -/
theorem C4_counterexample :
    UseMQTT.parseGPSLocationStr "not-a-number,106" = (0, 106) ∧
    ¬ UseMQTT.parseGPSLocationStr "not-a-number,106" = ((0 : ℚ), (0 : ℚ)) := by
  refine ⟨by decide, by decide⟩

/-- Claim C4 (amended): GPS parsing maps `"-6.2088,106.8456"` to
`{latitude: -6.2088, longitude: 106.8456}` (as rationals,
`-7761/1250 = -6.2088` and `133557/1250 = 106.8456`), and an unparsable
or missing coordinate falls back to `0` individually rather than for the
whole pair: `"not-a-number,106"` yields `{0, 106}`,
`"106,not-a-number"` yields `{106, 0}`, a single-piece string
`"1.5"` yields `{1.5, 0}`, and only a string with no parsable coordinate
at all, such as `"not-a-number"` or `""`, yields the full `{0,0}`
fallback.  The function is total — no input throws. -/
theorem C4_amended :
    UseMQTT.parseGPSLocationStr "-6.2088,106.8456" = (-(7761/1250), 133557/1250) ∧
    UseMQTT.parseGPSLocationStr "not-a-number,106" = (0, 106) ∧
    UseMQTT.parseGPSLocationStr "106,not-a-number" = (106, 0) ∧
    UseMQTT.parseGPSLocationStr "1.5" = (3/2, 0) ∧
    UseMQTT.parseGPSLocationStr "not-a-number" = (0, 0) ∧
    UseMQTT.parseGPSLocationStr "" = (0, 0) := by
  refine ⟨by decide, by decide, by decide, by decide, by decide, by decide⟩

end ConcreteEvaluation

/-- Helper: `addHandler` appends the new handler at the end of the topic's
registration list and leaves the lookup result for that topic as the old
list plus the new handler. -/
lemma lookup_addHandler (l : List (String × List Handler)) (topic : String) (h : Handler) :
    ((addHandler l topic h).lookup topic).getD [] = (l.lookup topic).getD [] ++ [h] := by
  induction l with
  | nil => simp [addHandler, List.lookup]
  | cons kv rest ih =>
    obtain ⟨k, hs⟩ := kv
    by_cases hk : k = topic
    · subst hk
      simp [addHandler, List.lookup]
    · simp only [addHandler, if_neg hk, List.lookup]
      have : (topic == k) = false := by
        simp [beq_iff_eq]
        exact fun he => hk he.symm
      simp [this, ih]

/-- Helper: `subscribe` appends the handler to the topic's registration
list. -/
lemma handlersFor_subscribe (svc : MQTTService) (topic : String) (h : Handler) :
    handlersFor (svc.subscribe topic h).1 topic = handlersFor svc topic ++ [h] := by
  simp only [MQTTService.subscribe, handlersFor]
  exact lookup_addHandler svc.messageHandlers topic h

/-- Helper: `onConnectEvent` does not change the handler registry. -/
lemma messageHandlers_onConnectEvent (svc : MQTTService) :
    (onConnectEvent svc).1.messageHandlers = svc.messageHandlers := rfl

/-- Helper: for a non-null payload, `handleSensorData` runs its core. -/
lemma handleSensorData_eq_core (data : JValue) (ts : String) (prev : UseMQTT.SmartBoxData)
    (hne : ¬ data = JValue.null) :
    UseMQTT.handleSensorData data ts prev = UseMQTT.handleSensorDataCore data ts prev := by
  cases data <;> first | exact absurd rfl hne | rfl

/-- Claim C5: `publish` called while the service is not connected returns
`false` and performs no transport action — the check
`if (!this.client || !this.isConnected)` short-circuits before any use of
the client, so no exception can be thrown; the failure is reported purely
as a boolean to the caller. -/
theorem C5_publish_disconnected (svc : MQTTService) (topic : String)
    (message : JValue) (retain : Bool) (h : svc.isConnected = false) :
    svc.publish topic message retain = (false, []) := by
  simp [MQTTService.publish, h]

/-- Claim C5 witness: a concrete disconnected service, publishing a
concrete warning payload. -/
theorem C5_publish_disconnected_witness :
    (MQTTService.mk true false [] 0 "client-1").isConnected = false ∧
    (MQTTService.mk true false [] 0 "client-1").publish "smartbox/command/warning"
        (JValue.str "warn") false = (false, []) :=
  ⟨rfl, C5_publish_disconnected (MQTTService.mk true false [] 0 "client-1")
      "smartbox/command/warning" (JValue.str "warn") false rfl⟩

/-- Claim C7: the clause "disconnect clears all handler registrations"
fails when `this.client` is null: `disconnect` is then a complete no-op,
so a service that registered a handler before ever connecting keeps that
registration across `disconnect`. -/
theorem C7_counterexample :
    (MQTTService.mk false false [("topic/a", [Handler.mk 0 false])] 0 "c").disconnect
      = (MQTTService.mk false false [("topic/a", [Handler.mk 0 false])] 0 "c", []) ∧
    ¬ (MQTTService.mk false false [("topic/a", [Handler.mk 0 false])] 0 "c").disconnect.1.messageHandlers
        = [] := by
  refine ⟨rfl, by decide⟩

/-- Claim C7 (amended): when a client exists, `disconnect` ends the
transport, clears all handler registrations and resets the state; when
the client is already null it is a no-op (handler registrations, if any,
are kept).  Under the code's flow invariant that `isConnected` implies a
client exists (the flag is only ever set by the `'connect'` handler of a
created client), `disconnect` always leaves `isConnected = false`, and a
second call in a row is a no-op that leaves it `false` again; the
function is total, so neither call throws. -/
theorem C7_amended (svc : MQTTService)
    (hinv : svc.isConnected = true → svc.hasClient = true) :
    (svc.hasClient = true →
      svc.disconnect =
        ({ svc with hasClient := false, isConnected := false, messageHandlers := [] },
         [ClientAction.transportEnd])) ∧
    (svc.hasClient = false → svc.disconnect = (svc, [])) ∧
    svc.disconnect.1.isConnected = false ∧
    svc.disconnect.1.disconnect = (svc.disconnect.1, []) ∧
    svc.disconnect.1.disconnect.1.isConnected = false := by
  cases hc : svc.hasClient with
  | false =>
    cases hco : svc.isConnected with
    | false => simp [MQTTService.disconnect, hc, hco]
    | true => exact absurd (hinv hco) (by simp [hc])
  | true => simp [MQTTService.disconnect, hc]

/-- Claim C7 witness: a connected service with one registration,
disconnected twice. -/
theorem C7_amended_witness :
    (MQTTService.mk true true [("t/a", [Handler.mk 1 false])] 2 "c").disconnect.1.isConnected
        = false ∧
    (MQTTService.mk true true [("t/a", [Handler.mk 1 false])] 2 "c").disconnect.1.disconnect.1.isConnected
        = false ∧
    (MQTTService.mk true true [("t/a", [Handler.mk 1 false])] 2 "c").disconnect.1.messageHandlers
        = [] := by
  have h := C7_amended (MQTTService.mk true true [("t/a", [Handler.mk 1 false])] 2 "c")
    (fun _ => rfl)
  exact ⟨h.2.2.1, h.2.2.2.2, by rw [h.1 rfl]⟩

/-- Claim C10: when the inbound payload is not valid JSON, `handleMessage`
does not discard the message: the `catch` substitutes the raw string, and
every handler registered for the topic is invoked with that raw string,
in registration order.  Each invocation sits in its own `try`/`catch`, so
the produced invocation list is independent of any handler's `throws`
flag — a throwing handler cannot suppress the handlers after it. -/
theorem C10_raw_dispatch (svc : MQTTService) (topic message : String)
    (hfail : jsJSONParse message = none) :
    svc.handleMessage topic message =
      (handlersFor svc topic).map
        (fun h => { handler := h, topic := topic, payload := ParsedMessage.raw message }) := by
  unfold MQTTService.handleMessage
  rw [hfail]

/-- Claim C10 witness: a service with a throwing handler registered before
a second handler; both are invoked, in order, with the raw non-JSON
string. -/
theorem C10_raw_dispatch_witness :
    jsJSONParse "hello sensor" = none ∧
    (MQTTService.mk true true [("sensors/raw", [Handler.mk 0 true, Handler.mk 1 false])] 0 "c").handleMessage
        "sensors/raw" "hello sensor"
      = [{ handler := Handler.mk 0 true, topic := "sensors/raw",
           payload := ParsedMessage.raw "hello sensor" },
         { handler := Handler.mk 1 false, topic := "sensors/raw",
           payload := ParsedMessage.raw "hello sensor" }] := by
  refine ⟨rfl, ?_⟩
  rw [C10_raw_dispatch
    (MQTTService.mk true true [("sensors/raw", [Handler.mk 0 true, Handler.mk 1 false])] 0 "c")
    "sensors/raw" "hello sensor" rfl]
  rfl

/-- Claim C6: the claim's assertion that for every topic registered before
connect "the transport subscription is issued when connect succeeds"
fails: on the `'connect'` event the service calls `subscribeToTopics`,
which subscribes to the fixed `mqttTopics` configuration list only, not
to the topics of registered handlers.  A handler registered for
`"custom/alerts"` before connect is deferred (no transport action), yet
the connect event issues no transport subscription for that topic. -/
theorem C6_counterexample :
    ((MQTTService.mk true false [] 0 "c").subscribe "custom/alerts" (Handler.mk 0 false)).2
        = [] ∧
    (onConnectEvent
        ((MQTTService.mk true false [] 0 "c").subscribe "custom/alerts" (Handler.mk 0 false)).1).2
      = [ClientAction.transportSubscribe "coolerbox/sensor/data",
         ClientAction.transportSubscribe "smartbox/command/warning",
         ClientAction.transportSubscribe "smartbox/command/control"] ∧
    ¬ ClientAction.transportSubscribe "custom/alerts" ∈
        (onConnectEvent
          ((MQTTService.mk true false [] 0 "c").subscribe "custom/alerts" (Handler.mk 0 false)).1).2 := by
  refine ⟨rfl, rfl, ?_⟩
  intro hmem
  have he : (onConnectEvent
      ((MQTTService.mk true false [] 0 "c").subscribe "custom/alerts" (Handler.mk 0 false)).1).2
    = [ClientAction.transportSubscribe "coolerbox/sensor/data",
       ClientAction.transportSubscribe "smartbox/command/warning",
       ClientAction.transportSubscribe "smartbox/command/control"] := rfl
  rw [he] at hmem
  simp only [List.mem_cons, List.not_mem_nil, or_false] at hmem
  rcases hmem with h1 | h1 | h1 <;> injection h1 with hs <;> exact absurd hs (by decide)

/-- Claim C6 (amended): a registration made while disconnected is deferred
(the handler is appended to the registry and no transport action is
issued); when connect succeeds, the service subscribes the transport to
the fixed topic list of `mqttTopics` — not to every registered topic — so
a handler registered for one of those fixed topics (in particular the
sensor-data topic) is among the handlers invoked for messages arriving
after connect; and a `subscribe` on a connected client issues the
transport subscription for the given topic immediately. -/
theorem C6_amended :
    (∀ (svc : MQTTService) (topic : String) (hd : Handler),
      svc.isConnected = false → (svc.subscribe topic hd).2 = []) ∧
    (∀ (svc : MQTTService) (topic : String) (hd : Handler),
      handlersFor (svc.subscribe topic hd).1 topic = handlersFor svc topic ++ [hd]) ∧
    (∀ svc : MQTTService, svc.hasClient = true →
      (onConnectEvent svc).2 = mqttTopicsList.map ClientAction.transportSubscribe) ∧
    (∀ (svc : MQTTService) (topic : String) (hd : Handler),
      svc.hasClient = true → svc.isConnected = true →
      (svc.subscribe topic hd).2 = [ClientAction.transportSubscribe topic]) ∧
    (∀ (svc : MQTTService) (hd : Handler) (message : String),
      hd ∈ ((onConnectEvent (svc.subscribe sensorDataTopic hd).1).1.handleMessage
            sensorDataTopic message).map Invocation.handler) := by
  refine ⟨?_, ?_, ?_, ?_, ?_⟩
  · intro svc topic hd hco
    simp [MQTTService.subscribe, hco]
  · intro svc topic hd
    exact handlersFor_subscribe svc topic hd
  · intro svc hc
    simp [onConnectEvent, subscribeToTopics, hc]
  · intro svc topic hd hc hco
    simp [MQTTService.subscribe, hc, hco]
  · intro svc hd message
    have hreg : handlersFor (onConnectEvent (svc.subscribe sensorDataTopic hd).1).1
        sensorDataTopic = handlersFor svc sensorDataTopic ++ [hd] := by
      have h1 : handlersFor (onConnectEvent (svc.subscribe sensorDataTopic hd).1).1
          sensorDataTopic = handlersFor (svc.subscribe sensorDataTopic hd).1 sensorDataTopic := by
        simp [handlersFor, messageHandlers_onConnectEvent]
      rw [h1, handlersFor_subscribe]
    simp only [MQTTService.handleMessage, List.map_map]
    rw [hreg]
    simp

/-- Claim C6 witness: concrete instances for the guarded parts — a
deferred registration on a disconnected service, the fixed subscription
list on connect, and an immediate transport subscription on a connected
service. -/
theorem C6_amended_witness :
    ((MQTTService.mk true false [] 0 "c").subscribe "t1" (Handler.mk 2 false)).2 = [] ∧
    ((MQTTService.mk true true [] 0 "c").subscribe "t1" (Handler.mk 2 false)).2
      = [ClientAction.transportSubscribe "t1"] ∧
    (onConnectEvent (MQTTService.mk true false [] 0 "c")).2
      = mqttTopicsList.map ClientAction.transportSubscribe :=
  ⟨C6_amended.1 (MQTTService.mk true false [] 0 "c") "t1" (Handler.mk 2 false) rfl,
   C6_amended.2.2.2.1 (MQTTService.mk true true [] 0 "c") "t1" (Handler.mk 2 false) rfl rfl,
   C6_amended.2.2.1 (MQTTService.mk true false [] 0 "c") rfl⟩

/-- Claim C8: the clause "leaves the connection state at error" fails.
In a run where connect succeeds, the broker connection closes, and five
reconnect attempts occur, the service ends the client on the fifth
attempt (it does stop retrying), but no error state exists or is set
anywhere: the service only clears its boolean `isConnected` (on the
`'close'` event), the hook registers no callback for `'reconnect'` or
`'close'`, and so the hook-level status still shows `connected = true`
with `error = null` after the client is ended. -/
theorem C8_counterexample :
    (runSystem
        (SystemState.mk (MQTTService.mk true false [("coolerbox/sensor/data", [Handler.mk 0 false])] 0 "cid")
          (MQTTConnectionStatus.mk false true none ""))
        [SystemEvent.connectSuccess, SystemEvent.brokerClose,
         SystemEvent.brokerReconnectAttempt, SystemEvent.brokerReconnectAttempt,
         SystemEvent.brokerReconnectAttempt, SystemEvent.brokerReconnectAttempt,
         SystemEvent.brokerReconnectAttempt]).1.hookStatus.error = none ∧
    (runSystem
        (SystemState.mk (MQTTService.mk true false [("coolerbox/sensor/data", [Handler.mk 0 false])] 0 "cid")
          (MQTTConnectionStatus.mk false true none ""))
        [SystemEvent.connectSuccess, SystemEvent.brokerClose,
         SystemEvent.brokerReconnectAttempt, SystemEvent.brokerReconnectAttempt,
         SystemEvent.brokerReconnectAttempt, SystemEvent.brokerReconnectAttempt,
         SystemEvent.brokerReconnectAttempt]).1.hookStatus.connected = true ∧
    (runSystem
        (SystemState.mk (MQTTService.mk true false [("coolerbox/sensor/data", [Handler.mk 0 false])] 0 "cid")
          (MQTTConnectionStatus.mk false true none ""))
        [SystemEvent.connectSuccess, SystemEvent.brokerClose,
         SystemEvent.brokerReconnectAttempt, SystemEvent.brokerReconnectAttempt,
         SystemEvent.brokerReconnectAttempt, SystemEvent.brokerReconnectAttempt,
         SystemEvent.brokerReconnectAttempt]).2
      = [ClientAction.transportSubscribe "coolerbox/sensor/data",
         ClientAction.transportSubscribe "smartbox/command/warning",
         ClientAction.transportSubscribe "smartbox/command/control",
         ClientAction.transportEnd] := by
  refine ⟨rfl, rfl, rfl⟩

/-- Claim C8 (amended): the `'reconnect'` handler counts attempts; once
the counter reaches the maximum of 5 (hardcoded, not configurable) it
ends the client — so the service does stop retrying rather than retrying
forever — and below the maximum it performs no action.  No error state is
set: neither the reconnect event nor the close event touches the
hook-level connection status, which is the only place an error message
could be recorded. -/
theorem C8_amended :
    (∀ svc : MQTTService,
      (onReconnectEvent svc).1.reconnectAttempts = svc.reconnectAttempts + 1) ∧
    (∀ svc : MQTTService, svc.hasClient = true →
      maxReconnectAttempts ≤ svc.reconnectAttempts + 1 →
      (onReconnectEvent svc).2 = [ClientAction.transportEnd]) ∧
    (∀ svc : MQTTService, svc.reconnectAttempts + 1 < maxReconnectAttempts →
      (onReconnectEvent svc).2 = []) ∧
    (∀ st : SystemState,
      (systemStep st SystemEvent.brokerReconnectAttempt).1.hookStatus = st.hookStatus) ∧
    (∀ st : SystemState,
      (systemStep st SystemEvent.brokerClose).1.hookStatus = st.hookStatus) := by
  refine ⟨?_, ?_, ?_, ?_, ?_⟩
  · intro svc; rfl
  · intro svc hc hle
    simp [onReconnectEvent, hc, hle]
  · intro svc hlt
    simp only [onReconnectEvent]
    rw [if_neg]
    intro hx
    exact absurd hx.1 (by omega)
  · intro st; rfl
  · intro st; rfl

/-- Claim C8 witness: concrete reconnect events at and below the cap. -/
theorem C8_amended_witness :
    (onReconnectEvent (MQTTService.mk true false [] 4 "c")).2 = [ClientAction.transportEnd] ∧
    (onReconnectEvent (MQTTService.mk true false [] 0 "c")).2 = [] :=
  ⟨C8_amended.2.1 (MQTTService.mk true false [] 4 "c") rfl
      (by norm_num [maxReconnectAttempts]),
   C8_amended.2.2.1 (MQTTService.mk true false [] 0 "c")
      (by norm_num [maxReconnectAttempts])⟩

section NormalizationTheorems

attribute [local semireducible] Rat.mul Rat.inv Rat.add Rat.sub

/-- Claim C1: the claim fails on the code — the live normalization step
(`handleSensorData`) performs no field validation at all.  A payload with
the `status` field missing entirely is not discarded: it produces an
updated snapshot (new device id, new timestamps, `online = false`),
changing the prior state, whose temperature timestamp was `"Never"`.
(The validating `parseSmartBoxData` helper is dead code and recognizes
only per-field topics, never the combined reading.) -/
theorem C1_counterexample :
    (let pl := JValue.obj [("device_id", JValue.str "box-7"), ("temperature", JValue.num 5),
                           ("humidity", JValue.num 50), ("gps_location", JValue.str "1,2")]
     (UseMQTT.handleSensorData pl "t1" UseMQTT.initialSmartBoxData).isSome = true ∧
     (UseMQTT.handleSensorData pl "t1" UseMQTT.initialSmartBoxData).map
         (fun st => (st.deviceId, st.temperature.lastUpdate, st.location.latitude,
                     st.systemStatus.online))
       = some (some (JValue.str "box-7"), "t1", 1, false) ∧
     UseMQTT.initialSmartBoxData.temperature.lastUpdate = "Never") := by
  refine ⟨rfl, rfl, rfl⟩

/-- Claim C1 (amended): the normalization step does not validate fields.
Any non-null payload whose `temperature` and `humidity` are numbers —
regardless of `device_id`, `gps_location` or `status` being missing or
mistyped — replaces the whole snapshot, storing the raw `device_id` and
`status` values, the GPS fallback for a bad location, and
`online = false` for a non-`"active"` status.  A message is dropped with
the state unchanged only when the payload is `null` or its `temperature`
is not a number (the `humidity` case is symmetric): the update then dies
on a thrown `TypeError`, not on a validation check.  The only validating
parser in the repository, `parseSmartBoxData`, is unused and returns
`null` for every message on the combined sensor topic. -/
theorem C1_amended :
    (∀ (data : JValue) (ts : String) (prev : UseMQTT.SmartBoxData) (t h : ℚ),
      jget data "temperature" = some (JValue.num t) →
      jget data "humidity" = some (JValue.num h) →
      ¬ data = JValue.null →
      UseMQTT.handleSensorData data ts prev = some
        { deviceId := jget data "device_id"
          temperature := { value := jsToFixed2 t, unit := "°C",
                           status := UseMQTT.getTemperatureStatus t, lastUpdate := ts }
          humidity := { value := jsToFixed2 h, unit := "%",
                        status := UseMQTT.getHumidityStatus h, lastUpdate := ts }
          location := { latitude := (UseMQTT.parseGPSLocationJS (jget data "gps_location")).1,
                        longitude := (UseMQTT.parseGPSLocationJS (jget data "gps_location")).2,
                        accuracy := 10, lastUpdate := ts }
          systemStatus := { online := UseMQTT.statusIsActive (jget data "status"),
                            status := jget data "status", lastUpdate := ts } }) ∧
    (∀ (data : JValue) (ts : String) (prev : UseMQTT.SmartBoxData),
      (∀ q : ℚ, ¬ jget data "temperature" = some (JValue.num q)) →
      UseMQTT.handleSensorData data ts prev = none) ∧
    (∀ message : String,
      MqttUtils.parseSmartBoxData "coolerbox/sensor/data" message = none) := by
  refine ⟨?_, ?_, ?_⟩
  · intro data ts prev t h ht hh hne
    rw [handleSensorData_eq_core data ts prev hne]
    simp only [UseMQTT.handleSensorDataCore]
    rw [ht, hh]
  · intro data ts prev hq
    by_cases hne : data = JValue.null
    · subst hne; rfl
    · rw [handleSensorData_eq_core data ts prev hne]
      simp only [UseMQTT.handleSensorDataCore]
      rcases hjt : jget data "temperature" with _ | v
      · rfl
      · rcases v with _ | b | q | s | es | fs
        · rfl
        · rfl
        · exact absurd hjt (hq q)
        · rfl
        · rfl
        · rfl
  · intro message
    simp only [MqttUtils.parseSmartBoxData]
    rcases hp : jsJSONParse message with _ | data
    · rfl
    · rfl

/-- Claim C1 witness: concrete instances — a valid-shape payload is
accepted, a payload whose `temperature` is a string is dropped, and a
concrete message on the combined topic is rejected by the unused
helper. -/
theorem C1_amended_witness :
    (UseMQTT.handleSensorData
        (JValue.obj [("temperature", JValue.num 2), ("humidity", JValue.num 50)])
        "t2" UseMQTT.initialSmartBoxData).isSome = true ∧
    UseMQTT.handleSensorData
        (JValue.obj [("temperature", JValue.str "hot"), ("humidity", JValue.num 50)])
        "t2" UseMQTT.initialSmartBoxData = none ∧
    MqttUtils.parseSmartBoxData "coolerbox/sensor/data"
        "\x7b\"value\": 3, \"unit\": \"C\"\x7d" = none := by
  refine ⟨?_, ?_, ?_⟩
  · rw [C1_amended.1 (JValue.obj [("temperature", JValue.num 2), ("humidity", JValue.num 50)])
      "t2" UseMQTT.initialSmartBoxData 2 50 rfl rfl (fun hx => JValue.noConfusion hx)]
    rfl
  · exact C1_amended.2.1 (JValue.obj [("temperature", JValue.str "hot"), ("humidity", JValue.num 50)])
      "t2" UseMQTT.initialSmartBoxData (fun q hx => by
        simp only [jget, List.lookup] at hx
        exact absurd hx (by simp))
  · exact C1_amended.2.2 "\x7b\"value\": 3, \"unit\": \"C\"\x7d"

/-- Claim C9: the temperature and humidity values stored in the snapshot
are the payload numbers passed through `parseFloat(x.toFixed(2))` —
rounding to at most two decimal places — not the raw payload values;
`1.234` is stored as `1.23`, as the final conjunct shows. -/
theorem C9_rounding (data : JValue) (ts : String) (prev : UseMQTT.SmartBoxData) (t h : ℚ)
    (ht : jget data "temperature" = some (JValue.num t))
    (hh : jget data "humidity" = some (JValue.num h))
    (hne : ¬ data = JValue.null) :
    (UseMQTT.handleSensorData data ts prev).map
        (fun st => (st.temperature.value, st.humidity.value))
      = some (jsToFixed2 t, jsToFixed2 h) ∧
    jsToFixed2 (1234/1000) = 123/100 ∧
    ¬ jsToFixed2 (1234/1000) = 1234/1000 := by
  refine ⟨?_, by decide, by decide⟩
  rw [handleSensorData_eq_core data ts prev hne]
  simp only [UseMQTT.handleSensorDataCore]
  rw [ht, hh]
  rfl

/-- Claim C9 witness: a payload carrying `temperature = 1.234` and
`humidity = 90` stores `(1.23, 90)`. -/
theorem C9_rounding_witness :
    (UseMQTT.handleSensorData
        (JValue.obj [("device_id", JValue.str "d"), ("temperature", JValue.num (1234/1000)),
                     ("humidity", JValue.num 90), ("gps_location", JValue.str "0,0"),
                     ("status", JValue.str "active")])
        "ts" UseMQTT.initialSmartBoxData).map
        (fun st => (st.temperature.value, st.humidity.value))
      = some (jsToFixed2 (1234/1000), jsToFixed2 90) :=
  (C9_rounding
      (JValue.obj [("device_id", JValue.str "d"), ("temperature", JValue.num (1234/1000)),
                   ("humidity", JValue.num 90), ("gps_location", JValue.str "0,0"),
                   ("status", JValue.str "active")])
      "ts" UseMQTT.initialSmartBoxData (1234/1000) 90 rfl rfl
      (fun hx => JValue.noConfusion hx)).1

end NormalizationTheorems
